import Mathlib

/-!
Verification development for the AGN Health Q&A RAG backend (`app.py`,
class `LlamaIndexRAGSystem` plus the FastAPI session endpoints).

The Python code is shallowly embedded: external collaborators (the
embedding model, the MongoDB collection and its Atlas `$vectorSearch`
stage, the generation backend, the per-session chat engine) are modelled
as an explicit environment `Env` of oracles that may fail, mirroring the
`try/except` structure of the source.  Mutable per-process state (the
`chat_engines` and `session_cleanup_time` dicts) is modelled as explicit
association lists threaded through the operations.  Timestamps are `Int`,
similarity scores are `Rat`, Python string slicing `s[:n]` is `strTake`.
-/

/-- A stored Q&A document, as projected by the code:
`{thread_id, topic, question, answer, date}` (the embedding itself lives
in the store and is consulted only through the similarity oracle). -/
structure Doc where
  thread_id : Nat
  topic : String
  question : String
  answer : String
  date : String
deriving DecidableEq, Repr

/-- A retrieved context as returned by `retrieve_documents` /
`_fallback_retrieve`: the document fields plus an optional similarity
score (present only on the vector-search path). -/
structure RetrievedContext where
  thread_id : Nat
  topic : String
  question : String
  answer : String
  date : String
  score : Option Rat
deriving DecidableEq, Repr

/-- A chat message as built by the code via `ChatMessage(role=…, content=…)`. -/
structure ChatMessage where
  role : String
  content : String
deriving DecidableEq, Repr

/-- The backend variant recorded in `self.llm_type` by `_setup_llm`:
`"openai"`, `"llama2"`, or `"fallback"`. -/
inductive LLMType where
  | openai
  | llama2
  | fallback
deriving DecidableEq, Repr

/-- The chat engine created per session by `_create_chat_engine`
(`CondensePlusContextChatEngine` with a bounded memory); we track its
conversation memory as a list of (user turn, assistant turn) pairs. -/
structure ChatEngine where
  memory : List (String × String)
deriving DecidableEq, Repr

/-- The environment of external collaborators and process-wide setup
state.  Each `Except`-valued field models a call that may raise. -/
structure Env where
  /-- `self.llm_type` as set by `_setup_llm`. -/
  llmType : LLMType
  /-- whether `self.llm` is not `None`. -/
  llmPresent : Bool
  /-- `self.llm.chat(messages).message.content` (OpenAI variant); `.error` models a raise. -/
  chatResult : List ChatMessage → Except String String
  /-- `self.llm.complete(prompt).text` (Llama-2 variant); `.error` models a raise. -/
  completeResult : String → Except String String
  /-- `chat_engine.chat(query)` stringified; `.error` models a raise. -/
  engineChatResult : String → Except String String
  /-- whether the `try` body of `_create_chat_engine` completes without raising. -/
  createOk : Bool
  /-- `self.embed_model.get_query_embedding(query)`; `.error` models a raise. -/
  embedResult : String → Except String (List Rat)
  /-- the store's similarity metric between a query vector and a document. -/
  simScore : List Rat → Doc → Rat
  /-- whether `collection.aggregate(pipeline)` succeeds (index present, connectivity). -/
  searchOk : Bool
  /-- the collection's documents, in storage order. -/
  docs : List Doc
  /-- whether the fallback `collection.find(...)` succeeds. -/
  findOk : Bool

/-- `self.llm_type in ["openai", "llama2"] and self.llm`. -/
def llmActive (env : Env) : Bool :=
  (match env.llmType with
   | .openai => true
   | .llama2 => true
   | .fallback => false) && env.llmPresent

/-- Python `s[:n]`: the first `n` characters of `s`. -/
def strTake (s : String) (n : Nat) : String :=
  String.mk (s.data.take n)

/-! ### Python-dict association lists

`self.chat_engines` and `self.session_cleanup_time` are Python dicts;
we model them as association lists with dict semantics: assignment
replaces in place or appends, `del` removes, lookup finds the first
binding. -/

/-- `d.get(k)` / `d[k]` lookup. -/
def dlookup {α : Type} (l : List (String × α)) (k : String) : Option α :=
  match l with
  | [] => none
  | (k', v) :: t => if k' = k then some v else dlookup t k

/-- `d[k] = v`: replace the binding in place, or append a new one. -/
def dinsert {α : Type} (k : String) (v : α) (l : List (String × α)) :
    List (String × α) :=
  match l with
  | [] => [(k, v)]
  | (k', v') :: t => if k' = k then (k', v) :: t else (k', v') :: dinsert k v t

/-- `del d[k]` (guarded by membership, so a no-op on an absent key). -/
def ddelete {α : Type} (k : String) (l : List (String × α)) :
    List (String × α) :=
  l.filter (fun p => ¬ p.1 = k)

/-- The two session-keyed dicts held by `LlamaIndexRAGSystem`. -/
structure Sessions where
  chat_engines : List (String × ChatEngine)
  session_cleanup_time : List (String × Int)
deriving Repr

namespace config

/-- `config.VECTOR_INDEX_NAME` (default value). -/
def VECTOR_INDEX_NAME : String := "vector_index"

end config

/-! ### Retrieval -/

/-- The `$vectorSearch` stage of the aggregation pipeline built by
`retrieve_documents`. -/
structure VectorSearchStage where
  index : String
  path : String
  queryVector : List Rat
  numCandidates : Nat
  limit : Nat
deriving DecidableEq, Repr

/-- The pipeline stage literally constructed at `app.py` lines 290–299. -/
def buildVectorSearchStage (queryVector : List Rat) (top_k : Nat) :
    VectorSearchStage :=
  { index := config.VECTOR_INDEX_NAME
    path := "contentVector"
    queryVector := queryVector
    numCandidates := top_k * 10
    limit := top_k }

/-- "better or equal score": the descending-score order used by the store. -/
def scoreGe (a b : Doc × Rat) : Prop := b.2 ≤ a.2

instance : DecidableRel scoreGe := fun a b =>
  inferInstanceAs (Decidable (b.2 ≤ a.2))

instance : IsTotal (Doc × Rat) scoreGe :=
  ⟨fun a b => (le_total b.2 a.2).imp id id⟩

instance : IsTrans (Doc × Rat) scoreGe :=
  ⟨fun _ _ _ h1 h2 => le_trans h2 h1⟩

/-- Every document paired with its similarity score for the query vector. -/
def scoredDocs (env : Env) (v : List Rat) : List (Doc × Rat) :=
  env.docs.map (fun d => (d, env.simScore v d))

/-- The `$project` stage applied to a vector-search hit: keep the six
fields, `score` = the similarity metric value. -/
def ctxOfScored (p : Doc × Rat) : RetrievedContext :=
  { thread_id := p.1.thread_id, topic := p.1.topic, question := p.1.question
    answer := p.1.answer, date := p.1.date, score := some p.2 }

/-- Projection used by the fallback `find` (no `score`). -/
def ctxOfDoc (d : Doc) : RetrievedContext :=
  { thread_id := d.thread_id, topic := d.topic, question := d.question
    answer := d.answer, date := d.date, score := none }

/-- Semantics of MongoDB Atlas `$vectorSearch` followed by the code's
`$project`: score every document with the similarity metric, return the
`limit` best, ordered by score descending. -/
def aggregateVectorSearch (env : Env) (stage : VectorSearchStage) :
    List RetrievedContext :=
  ((List.insertionSort scoreGe (scoredDocs env stage.queryVector)).take
      stage.limit).map ctxOfScored

/-- `_fallback_retrieve` (`app.py` 323–338): `find` the documents whose
`question` field is non-empty, in storage order, limited to `top_k`,
projected without `score`; an error in the `find` itself yields `[]`. -/
def fallback_retrieve (env : Env) (top_k : Nat) : List RetrievedContext :=
  if env.findOk then
    ((env.docs.filter (fun d => ¬ d.question = "")).take top_k).map ctxOfDoc
  else []

/-- `retrieve_documents` (`app.py` 280–321): embed the query, run the
`$vectorSearch` pipeline; any raise (embedding, search, index absence)
falls back to `_fallback_retrieve`. -/
def retrieve_documents (env : Env) (query : String) (top_k : Nat) :
    List RetrievedContext :=
  match env.embedResult query with
  | .error _ => fallback_retrieve env top_k
  | .ok v =>
    if env.searchOk then
      aggregateVectorSearch env (buildVectorSearchStage v top_k)
    else
      fallback_retrieve env top_k

/-! ### Query normalization -/

/-- The fixed system instruction of `normalize_query`. -/
def normalizeSystemPrompt : String :=
  "คุณเป็นผู้ช่วยที่ช่วยปรับแก้คำถามให้ชัดเจนและเหมาะสมสำหรับการค้นหาข้อมูลทางการแพทย์\nให้คุณปรับแก้คำถามให้สมบูรณ์ ชัดเจน และแก้ไขคำผิดหากมี แต่คงความหมายเดิม ตอบเป็นภาษาไทย"

/-- The message list `normalize_query` sends to the OpenAI backend. -/
def normalizeMessages (query : String) : List ChatMessage :=
  [⟨"system", normalizeSystemPrompt⟩,
   ⟨"user", "ปรับแก้คำถามนี้ให้ชัดเจนและเหมาะสมสำหรับการค้นหา: " ++ query⟩]

/-- `normalize_query` (`app.py` 252–278): only the OpenAI variant
normalizes; a raise in the backend call degrades to the raw query. -/
def normalize_query (env : Env) (query : String) : String :=
  if env.llmType = LLMType.openai && env.llmPresent then
    match env.chatResult (normalizeMessages query) with
    | .ok content => content.trim
    | .error _ => query
  else
    query

/-! ### Response synthesis -/

/-- The fixed apology returned by `generate_response` on empty contexts. -/
def noContextApology : String :=
  "ขออภัย ไม่พบข้อมูลที่เกี่ยวข้องกับคำถามของคุณ กรุณาลองถามคำถามอื่นหรือติดต่อแพทย์โดยตรง"

/-- `_format_contexts` (`app.py` 398–416): one numbered section per
context, each field included only when non-empty. -/
def format_contexts (contexts : List RetrievedContext) : String :=
  String.intercalate "\n"
    ((contexts.enumFrom 1).map (fun p =>
      let t0 := "\n--- Q&A " ++ toString p.1 ++ " ---"
      let t1 := if ¬ p.2.topic = "" then t0 ++ "\nหัวข้อ: " ++ p.2.topic else t0
      let t2 := if ¬ p.2.question = "" then t1 ++ "\nคำถาม: " ++ p.2.question else t1
      if ¬ p.2.answer = "" then t2 ++ "\nคำตอบ: " ++ p.2.answer else t2))

/-- The fixed system instruction of the generation call. -/
def answerSystemPrompt : String :=
  "คุณเป็นผู้ช่วยทางการแพทย์ที่ให้คำตอบจากข้อมูล Q&A ที่มีอยู่\nให้คุณตอบคำถามโดยอิงจากบริบทที่ให้มาเท่านั้น ตอบเป็นภาษาไทยที่เป็นธรรมชาติและเข้าใจง่าย\nหากข้อมูลไม่เพียงพอ ให้แนะนำให้ปรึกษาแพทย์"

/-- The message list for the OpenAI answer call. -/
def answerMessages (query : String) (contexts : List RetrievedContext) :
    List ChatMessage :=
  [⟨"system", answerSystemPrompt⟩,
   ⟨"user", "บริบทจาก Q&A:\n" ++ format_contexts contexts ++ "\n\nคำถาม: " ++
     query ++ "\n\nกรุณาตอบคำถามโดยอิงจากบริบทข้างต้น:"⟩]

/-- The single instruction-tagged prompt for the Llama-2 answer call. -/
def llamaAnswerPrompt (query : String) (contexts : List RetrievedContext) :
    String :=
  "[INST] <<SYS>>\n" ++ answerSystemPrompt ++ "\n<</SYS>>\n\nบริบทจาก Q&A:\n" ++
    format_contexts contexts ++ "\n\nคำถาม: " ++ query ++
    "\n\nกรุณาตอบคำถามโดยอิงจากบริบทข้างต้น: [/INST]"

/-- `answer[:300] + "..." if len(answer) > 300 else answer` (`app.py` 429). -/
def truncPreview (answer : String) : String :=
  if answer.length > 300 then strTake answer 300 ++ "..." else answer

/-- The fixed disclaimer line of the deterministic fallback formatter. -/
def fallbackDisclaimer : String :=
  "\n\nหมายเหตุ: นี่คือข้อมูลจากฐานข้อมูล Q&A สำหรับคำตอบที่ละเอียดกว่านี้ ควรปรึกษาแพทย์โดยตรง"

/-- `_fallback_response` (`app.py` 418–434): header, then for each of the
first 3 contexts a numbered heading (topic if truthy else question) plus
the truncated answer when non-empty, then the fixed disclaimer, all
joined with newlines. -/
def fallback_response (query : String) (contexts : List RetrievedContext) :
    String :=
  let header := "จากข้อมูลที่เกี่ยวข้องกับคำถาม: " ++ query ++ "\n"
  let items :=
    (((contexts.take 3).enumFrom 1).map (fun p =>
      ("\n" ++ toString p.1 ++ ". " ++
        (if ¬ p.2.topic = "" then p.2.topic else p.2.question)) ::
      (if ¬ p.2.answer = "" then ["   " ++ truncPreview p.2.answer] else []))).flatten
  String.intercalate "\n" (header :: (items ++ [fallbackDisclaimer]))

/-- `generate_response` (`app.py` 340–396).  The second component counts
generation-backend calls made during the invocation. -/
def generate_response (env : Env) (query : String)
    (contexts : List RetrievedContext) : String × Nat :=
  if contexts = [] then (noContextApology, 0)
  else if llmActive env then
    match env.llmType with
    | .openai =>
      match env.chatResult (answerMessages query contexts) with
      | .ok content => (content.trim, 1)
      | .error _ => (fallback_response query contexts, 1)
    | _ =>
      match env.completeResult (llamaAnswerPrompt query contexts) with
      | .ok text => (text.trim, 1)
      | .error _ => (fallback_response query contexts, 1)
  else (fallback_response query contexts, 0)

/-! ### Session lifecycle and the query pipeline -/

/-- `_create_chat_engine` (`app.py` 217–250): when an LLM is active and
the construction does not raise, register a fresh engine and its
timestamp and return it; otherwise return `None` leaving state intact. -/
def create_chat_engine (env : Env) (now : Int) (st : Sessions)
    (session_id : String) : Option ChatEngine × Sessions :=
  if llmActive env then
    if env.createOk then
      let engine : ChatEngine := { memory := [] }
      (some engine,
       { chat_engines := dinsert session_id engine st.chat_engines
         session_cleanup_time := dinsert session_id now st.session_cleanup_time })
    else (none, st)
  else (none, st)

/-- `_fallback_process_query` (`app.py` 480–496): normalize, retrieve,
synthesize; pure in this model since each step absorbs its own errors. -/
def fallback_process_query (env : Env) (query : String) (top_k : Nat) :
    String × List RetrievedContext :=
  let normalized := normalize_query env query
  let contexts := retrieve_documents env normalized top_k
  ((generate_response env normalized contexts).1, contexts)

/-- The engine path of `process_query` (`app.py` 457–473): touch the
session timestamp, normalize, let the engine chat (appending the turn
pair to its memory on success), and re-run plain retrieval for the
sources; a raise in the engine call lands in the outer `except`, which
falls back with the original query — the timestamp write has already
happened. -/
def run_engine_turn (env : Env) (now : Int) (st : Sessions)
    (session_id : String) (engine : ChatEngine) (query : String)
    (top_k : Nat) : (String × List RetrievedContext) × Sessions :=
  let st1 : Sessions :=
    { st with session_cleanup_time := dinsert session_id now st.session_cleanup_time }
  let normalized := normalize_query env query
  match env.engineChatResult normalized with
  | .error _ => (fallback_process_query env query top_k, st1)
  | .ok response =>
    let engine1 : ChatEngine := { memory := engine.memory ++ [(normalized, response)] }
    let st2 : Sessions :=
      { st1 with chat_engines := dinsert session_id engine1 st1.chat_engines }
    ((response, retrieve_documents env normalized top_k), st2)

/-- `process_query` (`app.py` 436–478): reuse or create the session's
chat engine; when none can be created, or the engine path raises, fall
back to the stateless pipeline. -/
def process_query (env : Env) (now : Int) (st : Sessions)
    (session_id : String) (query : String) (top_k : Nat) :
    (String × List RetrievedContext) × Sessions :=
  match dlookup st.chat_engines session_id with
  | some engine => run_engine_turn env now st session_id engine query top_k
  | none =>
    match create_chat_engine env now st session_id with
    | (none, st1) => (fallback_process_query env query top_k, st1)
    | (some engine, st1) => run_engine_turn env now st1 session_id engine query top_k

/-- `cleanup_old_sessions` (`app.py` 498–519): collect the sessions whose
`last_used` is strictly before `now - max_age`, then delete each from
both dicts (each delete guarded by membership). -/
def cleanup_old_sessions (st : Sessions) (now max_age : Int) : Sessions :=
  let cutoff := now - max_age
  let sessions_to_remove :=
    (st.session_cleanup_time.filter (fun p => p.2 < cutoff)).map (fun p => p.1)
  { chat_engines :=
      sessions_to_remove.foldl (fun l sid => ddelete sid l) st.chat_engines
    session_cleanup_time :=
      sessions_to_remove.foldl (fun l sid => ddelete sid l) st.session_cleanup_time }

/-- The `DELETE /session/{id}` handler `clear_session` (`app.py`
587–604): when the id has an engine, delete it and then delete the
timestamp with an unguarded `del`, which raises `KeyError` (`.error`)
if the timestamp is missing; otherwise report "not found".  The `Bool`
records whether the session was found. -/
def clear_session (st : Sessions) (session_id : String) :
    Except String (Sessions × Bool) :=
  if (dlookup st.chat_engines session_id).isSome then
    if (dlookup st.session_cleanup_time session_id).isSome then
      Except.ok
        ({ chat_engines := ddelete session_id st.chat_engines
           session_cleanup_time := ddelete session_id st.session_cleanup_time },
         true)
    else Except.error "KeyError"
  else Except.ok (st, false)

/-- The `POST /chat` handler (`app.py` 607–663): resolve the session id
(fresh uuid when absent), run `process_query`, and return
`(response, sources, session_id)` alongside the updated state. -/
def chat_endpoint (env : Env) (now : Int) (st : Sessions)
    (request_sid : Option String) (fresh_sid : String) (query : String)
    (top_k : Nat) : (String × List RetrievedContext × String) × Sessions :=
  let session_id := request_sid.getD fresh_sid
  let r := process_query env now st session_id query top_k
  ((r.1.1, r.1.2, session_id), r.2)

/-- The session-table invariant: the two dicts always hold entries for
exactly the same session ids. -/
def keysSynced (st : Sessions) : Prop :=
  ∀ sid, (dlookup st.chat_engines sid).isSome ↔
    (dlookup st.session_cleanup_time sid).isSome

/-- Results carry descending scores: whenever two results both carry a
score, the earlier one's score is at least the later one's. -/
def scoreDescending (l : List RetrievedContext) : Prop :=
  l.Pairwise (fun a b => ∀ sa sb, a.score = some sa → b.score = some sb → sb ≤ sa)

/-! ### Concrete fixtures (used by witness theorems) -/

/-- A document with all fields populated. -/
def docA : Doc := ⟨1, "topicA", "qA", "aA", "2024-01-01"⟩

/-- A document with an empty topic and a 301-character answer. -/
def docB : Doc := ⟨2, "", "qB", String.mk (List.replicate 301 'x'), "2024-01-02"⟩

/-- A document with an empty question (excluded by the fallback filter). -/
def docC : Doc := ⟨3, "topicC", "", "aC", "2024-01-03"⟩

/-- A healthy environment with no LLM configured (`llm_type = "fallback"`). -/
def baseEnv : Env :=
  { llmType := LLMType.fallback
    llmPresent := false
    chatResult := fun _ => Except.error "no llm"
    completeResult := fun _ => Except.error "no llm"
    engineChatResult := fun _ => Except.error "no engine"
    createOk := true
    embedResult := fun _ => Except.ok [1, 0]
    simScore := fun _ d => (d.thread_id : Rat) / 10
    searchOk := true
    docs := [docA, docB, docC]
    findOk := true }

/-- `baseEnv` with a failing embedding backend. -/
def envEmbedFail : Env :=
  { baseEnv with embedResult := fun _ => Except.error "embed down" }

/-- `baseEnv` with the local Llama-2 backend active. -/
def envLocalLLM : Env :=
  { baseEnv with llmType := LLMType.llama2, llmPresent := true }

/-- `baseEnv` with the hosted backend active and answering `"  ok  "`. -/
def envOpenAIok : Env :=
  { baseEnv with llmType := LLMType.openai, llmPresent := true
                 chatResult := fun _ => Except.ok "  ok  " }

/-- The empty session state. -/
def stEmpty : Sessions := ⟨[], []⟩

/-- A session state with two live sessions, last active at times 0 and 90. -/
def stSample : Sessions :=
  { chat_engines := [("s1", ⟨[]⟩), ("s2", ⟨[]⟩)]
    session_cleanup_time := [("s1", 0), ("s2", 90)] }

/-! ### Dictionary lemmas -/

theorem dlookup_dinsert_self {α : Type} (l : List (String × α)) (k : String)
    (v : α) : dlookup (dinsert k v l) k = some v := by
  induction l with
  | nil => simp [dinsert, dlookup]
  | cons p t ih =>
    by_cases h : p.1 = k
    · simp [dinsert, dlookup, h]
    · simp [dinsert, dlookup, h, ih]

theorem dlookup_dinsert_ne {α : Type} (l : List (String × α)) (k k' : String)
    (v : α) (h : ¬ k' = k) : dlookup (dinsert k v l) k' = dlookup l k' := by
  have hk : ¬ k = k' := fun hh => h hh.symm
  induction l with
  | nil => simp [dinsert, dlookup, hk]
  | cons p t ih =>
    by_cases hp : p.1 = k
    · simp [dinsert, hp, dlookup, hk]
    · simp only [dinsert, if_neg hp, dlookup, ih]

theorem ddelete_cons_self {α : Type} (p : String × α) (t : List (String × α))
    (k : String) (h : p.1 = k) : ddelete k (p :: t) = ddelete k t := by
  simp [ddelete, List.filter_cons, h]

theorem ddelete_cons_ne {α : Type} (p : String × α) (t : List (String × α))
    (k : String) (h : ¬ p.1 = k) : ddelete k (p :: t) = p :: ddelete k t := by
  simp [ddelete, List.filter_cons, h]

theorem dlookup_ddelete_self {α : Type} (l : List (String × α)) (k : String) :
    dlookup (ddelete k l) k = none := by
  induction l with
  | nil => rfl
  | cons p t ih =>
    by_cases h : p.1 = k
    · rw [ddelete_cons_self p t k h]
      exact ih
    · rw [ddelete_cons_ne p t k h]
      simp [dlookup, h, ih]

theorem dlookup_ddelete_ne {α : Type} (l : List (String × α)) (k k' : String)
    (h : ¬ k' = k) : dlookup (ddelete k l) k' = dlookup l k' := by
  induction l with
  | nil => rfl
  | cons p t ih =>
    by_cases hp : p.1 = k
    · have hq : ¬ p.1 = k' := fun hh => h (hh.symm.trans hp)
      rw [ddelete_cons_self p t k hp]
      rw [ih]
      simp [dlookup, hq]
    · rw [ddelete_cons_ne p t k hp]
      by_cases hq : p.1 = k'
      · simp [dlookup, hq]
      · simp [dlookup, hq, ih]

theorem dlookup_foldl_ddelete {α : Type} (rs : List String)
    (l : List (String × α)) (k : String) :
    dlookup (rs.foldl (fun acc sid => ddelete sid acc) l) k =
      if k ∈ rs then none else dlookup l k := by
  induction rs generalizing l with
  | nil => simp
  | cons r rs ih =>
    simp only [List.foldl_cons, ih, List.mem_cons]
    by_cases hk : k = r
    · subst hk
      simp [dlookup_ddelete_self]
    · simp [hk, dlookup_ddelete_ne _ _ _ hk]

theorem dlookup_mem {α : Type} {l : List (String × α)} {k : String} {v : α}
    (h : dlookup l k = some v) : (k, v) ∈ l := by
  induction l with
  | nil => simp [dlookup] at h
  | cons p t ih =>
    by_cases hp : p.1 = k
    · simp only [dlookup, if_pos hp] at h
      obtain ⟨a, b⟩ := p
      cases hp
      cases h
      exact List.mem_cons_self _ _
    · simp only [dlookup, if_neg hp] at h
      exact List.mem_cons_of_mem _ (ih h)

theorem mem_dlookup_of_nodup {α : Type} {l : List (String × α)} {k : String}
    {v : α} (hnd : (l.map Prod.fst).Nodup) (hmem : (k, v) ∈ l) :
    dlookup l k = some v := by
  induction l with
  | nil => simp at hmem
  | cons p t ih =>
    simp only [List.map_cons, List.nodup_cons] at hnd
    rcases List.mem_cons.mp hmem with h | h
    · cases h.symm
      simp [dlookup]
    · have hk : ¬ p.1 = k := by
        intro hpk
        exact hnd.1 (hpk ▸ List.mem_map_of_mem Prod.fst h)
      simp only [dlookup, if_neg hk]
      exact ih hnd.2 h

/-! ### Claim theorems -/

/-- C2: `generate_response` on an empty contexts sequence returns the
fixed apology directing the user to consult a physician, for every query
and environment, and makes zero generation-backend calls on that path. -/
theorem C2_empty_contexts_apology (env : Env) (query : String) :
    generate_response env query [] = (noContextApology, 0) := by
  rfl

/-- C7: `normalize_query` returns the raw query unchanged when the
backend is the local variant or unavailable, and also when the hosted
call raises; only a successful hosted call yields the trimmed generated
text; in no case is a backend error propagated. -/
theorem C7_normalize_policy (env : Env) (query : String) :
    (env.llmType = LLMType.llama2 ∨ env.llmType = LLMType.fallback ∨
        env.llmPresent = false → normalize_query env query = query) ∧
    (∀ e, env.chatResult (normalizeMessages query) = Except.error e →
        normalize_query env query = query) ∧
    (∀ s, env.llmType = LLMType.openai → env.llmPresent = true →
        env.chatResult (normalizeMessages query) = Except.ok s →
        normalize_query env query = s.trim) := by
  refine ⟨?_, ?_, ?_⟩
  · intro h
    unfold normalize_query
    rcases h with h | h | h <;> simp [h]
  · intro e he
    unfold normalize_query
    by_cases hc : env.llmType = LLMType.openai && env.llmPresent
    · simp [hc, he]
    · simp [hc]
  · intro s h1 h2 hs
    unfold normalize_query
    simp [h1, h2, hs]

/-! ### Retrieval lemmas -/

theorem fallback_retrieve_score_none (env : Env) (k : Nat) :
    ∀ c ∈ fallback_retrieve env k, c.score = none := by
  intro c hc
  unfold fallback_retrieve at hc
  by_cases hf : env.findOk = true
  · rw [if_pos hf] at hc
    obtain ⟨d, _, rfl⟩ := List.mem_map.mp hc
    rfl
  · rw [if_neg hf] at hc
    cases hc

theorem fallback_retrieve_length_le (env : Env) (k : Nat) :
    (fallback_retrieve env k).length ≤ k := by
  unfold fallback_retrieve
  by_cases hf : env.findOk = true
  · rw [if_pos hf, List.length_map]
    exact List.length_take_le _ _
  · rw [if_neg hf]
    exact Nat.zero_le _

theorem aggregate_length_le (env : Env) (stage : VectorSearchStage) :
    (aggregateVectorSearch env stage).length ≤ stage.limit := by
  unfold aggregateVectorSearch
  rw [List.length_map]
  exact List.length_take_le _ _

theorem aggregate_sorted (env : Env) (stage : VectorSearchStage) :
    scoreDescending (aggregateVectorSearch env stage) := by
  unfold aggregateVectorSearch scoreDescending
  have hs : List.Sorted scoreGe
      (List.insertionSort scoreGe (scoredDocs env stage.queryVector)) :=
    List.sorted_insertionSort scoreGe _
  have ht : List.Pairwise scoreGe
      ((List.insertionSort scoreGe (scoredDocs env stage.queryVector)).take
        stage.limit) :=
    List.Pairwise.sublist (List.take_sublist _ _) hs
  refine List.Pairwise.map _ ?_ ht
  intro a b hab sa sb hsa hsb
  simp only [ctxOfScored, Option.some.injEq] at hsa hsb
  rw [← hsa, ← hsb]
  exact hab

theorem scoreDescending_of_none {l : List RetrievedContext}
    (h : ∀ c ∈ l, c.score = none) : scoreDescending l := by
  unfold scoreDescending
  induction l with
  | nil => exact List.Pairwise.nil
  | cons a t ih =>
    constructor
    · intro b _ sa sb hsa _
      rw [h a (List.mem_cons_self a t)] at hsa
      cases hsa
    · exact ih (fun c hc => h c (List.mem_cons_of_mem a hc))

/-- C1: when the vector-search path of `retrieve_documents` raises
(embedding failure, or search failure / index absence), the error is not
propagated; the result is exactly the fallback query: up to `top_k`
documents with a non-empty `question`, in storage order, none carrying a
score. -/
theorem C1_error_falls_back (env : Env) (query : String) (top_k : Nat)
    (hfail : (∃ e, env.embedResult query = Except.error e) ∨
      env.searchOk = false)
    (hfind : env.findOk = true) :
    retrieve_documents env query top_k =
      ((env.docs.filter (fun d => ¬ d.question = "")).take top_k).map ctxOfDoc ∧
    (retrieve_documents env query top_k).length ≤ top_k ∧
    ∀ c ∈ retrieve_documents env query top_k,
      c.score = none ∧ ¬ c.question = "" := by
  have hfb : retrieve_documents env query top_k =
      ((env.docs.filter (fun d => ¬ d.question = "")).take top_k).map ctxOfDoc := by
    unfold retrieve_documents
    rcases hfail with ⟨e, he⟩ | hs
    · rw [he]
      simp [fallback_retrieve, hfind]
    · cases hemb : env.embedResult query with
      | error e => simp [fallback_retrieve, hfind]
      | ok v =>
        dsimp only
        rw [if_neg (by simp [hs])]
        simp [fallback_retrieve, hfind]
  refine ⟨hfb, ?_, ?_⟩
  · rw [hfb, List.length_map]
    exact List.length_take_le _ _
  · intro c hc
    rw [hfb] at hc
    obtain ⟨d, hd, rfl⟩ := List.mem_map.mp hc
    have hd' : d ∈ env.docs.filter (fun d => ¬ d.question = "") :=
      List.take_subset _ _ hd
    refine ⟨rfl, ?_⟩
    have := (List.mem_filter.mp hd').2
    simpa [ctxOfDoc] using this

/-- Witness for C1: with a failing embedding backend over the sample
store, `retrieve_documents` returns the two documents with non-empty
questions, unscored. -/
theorem C1_error_falls_back_witness :
    retrieve_documents envEmbedFail "ปวดหัว" 5 =
      ((envEmbedFail.docs.filter (fun d => ¬ d.question = "")).take 5).map
        ctxOfDoc := by
  exact (C1_error_falls_back envEmbedFail "ปวดหัว" 5
    (Or.inl ⟨"embed down", rfl⟩) rfl).1

/-- C3: for every `top_k` in `[1, 20]`, `retrieve_documents` returns at
most `top_k` items on every path, and whenever results carry scores they
are in descending score order. -/
theorem C3_retrieve_topk_sorted (env : Env) (query : String) (top_k : Nat)
    (h1 : 1 ≤ top_k) (h2 : top_k ≤ 20) :
    (retrieve_documents env query top_k).length ≤ top_k ∧
    scoreDescending (retrieve_documents env query top_k) := by
  unfold retrieve_documents
  cases hemb : env.embedResult query with
  | error e =>
    exact ⟨fallback_retrieve_length_le env top_k,
      scoreDescending_of_none (fallback_retrieve_score_none env top_k)⟩
  | ok v =>
    dsimp only
    by_cases hs : env.searchOk = true
    · rw [if_pos hs]
      exact ⟨aggregate_length_le env _, aggregate_sorted env _⟩
    · rw [if_neg hs]
      exact ⟨fallback_retrieve_length_le env top_k,
        scoreDescending_of_none (fallback_retrieve_score_none env top_k)⟩

/-- Witness for C3 at `top_k = 2` on the vector path of the sample
environment. -/
theorem C3_retrieve_topk_sorted_witness :
    (retrieve_documents baseEnv "q" 2).length ≤ 2 ∧
    scoreDescending (retrieve_documents baseEnv "q" 2) :=
  C3_retrieve_topk_sorted baseEnv "q" 2 (by decide) (by decide)

/-! ### The deterministic fallback formatter -/

theorem strTake_length_of_lt (s : String) (n : Nat) (h : n < s.length) :
    (strTake s n).length = n := by
  have hd : s.data.length = s.length := rfl
  have : (strTake s n).length = (s.data.take n).length := rfl
  rw [this, List.length_take]
  omega

/-- C4: the deterministic fallback formatter renders at most the first 3
contexts as a numbered list headed by the topic when non-empty and the
question otherwise, truncating every answer longer than 300 characters
to exactly its first 300 characters plus an ellipsis marker (shorter
answers unchanged), and ends with the fixed disclaimer. -/
theorem C4_fallback_formatter (query : String)
    (contexts : List RetrievedContext) (h : contexts ≠ []) :
    fallback_response query contexts =
      fallback_response query (contexts.take 3) ∧
    fallback_response query contexts =
      String.intercalate "\n"
        (("จากข้อมูลที่เกี่ยวข้องกับคำถาม: " ++ query ++ "\n") ::
          (((((contexts.take 3).enumFrom 1).map (fun p =>
            ("\n" ++ toString p.1 ++ ". " ++
              (if p.2.topic = "" then p.2.question else p.2.topic)) ::
            (if p.2.answer = "" then []
             else ["   " ++ (if p.2.answer.length ≤ 300 then p.2.answer
                  else strTake p.2.answer 300 ++ "...")]))).flatten) ++
           [fallbackDisclaimer])) ∧
    ∀ c ∈ contexts, 300 < c.answer.length →
      (strTake c.answer 300).length = 300 := by
  have hfun : ∀ p : Nat × RetrievedContext,
      (("\n" ++ toString p.1 ++ ". " ++
          (if ¬ p.2.topic = "" then p.2.topic else p.2.question)) ::
        (if ¬ p.2.answer = "" then ["   " ++ truncPreview p.2.answer]
         else [])) =
      (("\n" ++ toString p.1 ++ ". " ++
          (if p.2.topic = "" then p.2.question else p.2.topic)) ::
        (if p.2.answer = "" then []
         else ["   " ++ (if p.2.answer.length ≤ 300 then p.2.answer
              else strTake p.2.answer 300 ++ "...")])) := by
    intro p
    congr 1
    · by_cases ht : p.2.topic = "" <;> simp [ht]
    · by_cases ha : p.2.answer = ""
      · simp [ha]
      · rw [if_pos ha, if_neg ha]
        have htr : truncPreview p.2.answer =
            (if p.2.answer.length ≤ 300 then p.2.answer
             else strTake p.2.answer 300 ++ "...") := by
          unfold truncPreview
          by_cases hl : p.2.answer.length ≤ 300
          · rw [if_neg (by omega), if_pos hl]
          · rw [if_pos (by omega), if_neg hl]
        rw [htr]
  refine ⟨?_, ?_, ?_⟩
  · unfold fallback_response
    rw [List.take_take]
    simp
  · unfold fallback_response
    dsimp only
    rw [List.map_congr_left (fun p _ => hfun p)]
  · intro c _ hlen
    exact strTake_length_of_lt c.answer 300 hlen

/-- Witness for C4: a single context whose 301-character answer is
truncated to exactly 300 characters. -/
theorem C4_fallback_formatter_witness :
    (strTake (ctxOfDoc docB).answer 300).length = 300 := by
  refine (C4_fallback_formatter "q" [ctxOfDoc docB] (List.cons_ne_nil _ _)).2.2
    (ctxOfDoc docB) (List.mem_singleton_self _) ?_
  show 300 < (List.replicate 301 'x').length
  rw [List.length_replicate]
  omega

/-! ### The vector-search pipeline shape -/

/-- C8 counterexample: the `$vectorSearch` stage actually issued by
`retrieve_documents` sets `path` to `"contentVector"`, not `"embedding"`
as the claim states. -/
theorem C8_counterexample :
    ¬ (buildVectorSearchStage [] 5).path = "embedding" := by
  decide

/-- C8 (amended): on a successful embedding with vector `v` and a
healthy store, the store query issued is exactly
`{index: configured index name, path: "contentVector", queryVector: v,
numCandidates: top_k*10, limit: top_k}`, and every result is the
projection `{thread_id, topic, question, answer, date, score}` of a
stored document with `score` the similarity metric value. -/
theorem C8_pipeline_shape (env : Env) (query : String) (top_k : Nat)
    (v : List Rat) (hemb : env.embedResult query = Except.ok v)
    (hs : env.searchOk = true) :
    retrieve_documents env query top_k =
      aggregateVectorSearch env
        { index := config.VECTOR_INDEX_NAME, path := "contentVector"
          queryVector := v, numCandidates := top_k * 10, limit := top_k } ∧
    ∀ c ∈ retrieve_documents env query top_k,
      ∃ d ∈ env.docs, c = ctxOfScored (d, env.simScore v d) := by
  have heq : retrieve_documents env query top_k =
      aggregateVectorSearch env (buildVectorSearchStage v top_k) := by
    unfold retrieve_documents
    rw [hemb]
    dsimp only
    rw [if_pos hs]
  refine ⟨heq, ?_⟩
  intro c hc
  rw [heq] at hc
  unfold aggregateVectorSearch at hc
  obtain ⟨p, hp, rfl⟩ := List.mem_map.mp hc
  have hp1 : p ∈ List.insertionSort scoreGe
      (scoredDocs env (buildVectorSearchStage v top_k).queryVector) :=
    List.take_subset _ _ hp
  have hp2 : p ∈ scoredDocs env v :=
    (List.perm_insertionSort scoreGe _).mem_iff.mp hp1
  obtain ⟨d, hd, rfl⟩ := List.mem_map.mp hp2
  exact ⟨d, hd, rfl⟩

/-- Witness for C8 (amended), on the sample environment. -/
theorem C8_pipeline_shape_witness :
    retrieve_documents baseEnv "q" 3 =
      aggregateVectorSearch baseEnv
        { index := config.VECTOR_INDEX_NAME, path := "contentVector"
          queryVector := [1, 0], numCandidates := 3 * 10, limit := 3 } :=
  (C8_pipeline_shape baseEnv "q" 3 [1, 0] rfl rfl).1

/-! ### Session-state lemmas -/

theorem unavailable_create (env : Env) (now : Int) (st : Sessions)
    (sid : String) (hun : llmActive env = false) :
    create_chat_engine env now st sid = (none, st) := by
  unfold create_chat_engine
  rw [if_neg (by simp [hun])]

theorem unavailable_process (env : Env) (now : Int) (st : Sessions)
    (sid query : String) (top_k : Nat) (hun : llmActive env = false)
    (hno : dlookup st.chat_engines sid = none) :
    process_query env now st sid query top_k =
      (fallback_process_query env query top_k, st) := by
  unfold process_query
  rw [hno]
  dsimp only
  rw [unavailable_create env now st sid hun]

theorem cleanup_time_lookup (st : Sessions) (now max_age : Int)
    (sid : String) :
    dlookup (cleanup_old_sessions st now max_age).session_cleanup_time sid =
      if sid ∈ (st.session_cleanup_time.filter
          (fun p => p.2 < now - max_age)).map Prod.fst
      then none else dlookup st.session_cleanup_time sid := by
  unfold cleanup_old_sessions
  exact dlookup_foldl_ddelete _ _ _

theorem cleanup_engines_lookup (st : Sessions) (now max_age : Int)
    (sid : String) :
    dlookup (cleanup_old_sessions st now max_age).chat_engines sid =
      if sid ∈ (st.session_cleanup_time.filter
          (fun p => p.2 < now - max_age)).map Prod.fst
      then none else dlookup st.chat_engines sid := by
  unfold cleanup_old_sessions
  exact dlookup_foldl_ddelete _ _ _

theorem keysSynced_dinsert_both (st : Sessions) (sid : String)
    (e : ChatEngine) (t : Int) (h : keysSynced st) :
    keysSynced ⟨dinsert sid e st.chat_engines,
      dinsert sid t st.session_cleanup_time⟩ := by
  intro s
  by_cases hs : s = sid
  · subst hs
    simp [dlookup_dinsert_self]
  · simp only [dlookup_dinsert_ne _ _ _ _ hs]
    exact h s

theorem run_engine_turn_sync (env : Env) (now : Int) (st : Sessions)
    (sid : String) (e : ChatEngine) (query : String) (top_k : Nat)
    (hsome : (dlookup st.chat_engines sid).isSome = true)
    (h : keysSynced st) :
    keysSynced (run_engine_turn env now st sid e query top_k).2 := by
  cases hres : env.engineChatResult (normalize_query env query) with
  | error err =>
    have hst : (run_engine_turn env now st sid e query top_k).2 =
        ⟨st.chat_engines, dinsert sid now st.session_cleanup_time⟩ := by
      unfold run_engine_turn
      dsimp only
      rw [hres]
    rw [hst]
    intro s
    by_cases hs : s = sid
    · subst hs
      simp [dlookup_dinsert_self, hsome]
    · simp only [dlookup_dinsert_ne _ _ _ _ hs]
      exact h s
  | ok resp =>
    have hst : (run_engine_turn env now st sid e query top_k).2 =
        ⟨dinsert sid ⟨e.memory ++ [(normalize_query env query, resp)]⟩
            st.chat_engines,
          dinsert sid now st.session_cleanup_time⟩ := by
      unfold run_engine_turn
      dsimp only
      rw [hres]
    rw [hst]
    intro s
    by_cases hs : s = sid
    · subst hs
      simp [dlookup_dinsert_self]
    · simp only [dlookup_dinsert_ne _ _ _ _ hs]
      exact h s

theorem process_query_sync (env : Env) (now : Int) (st : Sessions)
    (sid query : String) (top_k : Nat) (h : keysSynced st) :
    keysSynced (process_query env now st sid query top_k).2 := by
  unfold process_query
  cases hl : dlookup st.chat_engines sid with
  | some e =>
    dsimp only
    exact run_engine_turn_sync env now st sid e query top_k
      (by rw [hl]; rfl) h
  | none =>
    dsimp only
    unfold create_chat_engine
    by_cases ha : llmActive env = true
    · rw [if_pos ha]
      by_cases hc : env.createOk = true
      · rw [if_pos hc]
        dsimp only
        refine run_engine_turn_sync env now _ sid _ query top_k ?_ ?_
        · simp [dlookup_dinsert_self]
        · exact keysSynced_dinsert_both st sid _ now h
      · rw [if_neg hc]
        exact h
    · rw [if_neg ha]
      exact h

theorem clear_session_sync (st : Sessions) (sid : String)
    (h : keysSynced st) :
    ∃ r, clear_session st sid = Except.ok r ∧ keysSynced r.1 := by
  unfold clear_session
  by_cases he : (dlookup st.chat_engines sid).isSome = true
  · have ht : (dlookup st.session_cleanup_time sid).isSome = true :=
      (h sid).mp he
    rw [if_pos he, if_pos ht]
    refine ⟨_, rfl, ?_⟩
    intro s
    by_cases hs : s = sid
    · subst hs
      simp [dlookup_ddelete_self]
    · simp only [dlookup_ddelete_ne _ _ _ hs]
      exact h s
  · rw [if_neg he]
    exact ⟨(st, false), rfl, h⟩

theorem cleanup_sync (st : Sessions) (now max_age : Int)
    (h : keysSynced st) : keysSynced (cleanup_old_sessions st now max_age) := by
  intro s
  rw [cleanup_time_lookup, cleanup_engines_lookup]
  by_cases hm : s ∈ (st.session_cleanup_time.filter
      (fun p => p.2 < now - max_age)).map Prod.fst
  · rw [if_pos hm, if_pos hm]
    exact Iff.rfl
  · rw [if_neg hm, if_neg hm]
    exact h s


/-- C5: with the generation backend unavailable, running `process_query`
twice with the same session id, query and `top_k` against the same store
yields the same answer text both times. -/
theorem C5_fallback_idempotent (env : Env) (now1 now2 : Int) (st : Sessions)
    (session_id query : String) (top_k : Nat)
    (hun : llmActive env = false)
    (hno : dlookup st.chat_engines session_id = none) :
    (process_query env now1 st session_id query top_k).1.1 =
      (process_query env now2
        (process_query env now1 st session_id query top_k).2
        session_id query top_k).1.1 := by
  rw [unavailable_process env now1 st session_id query top_k hun hno]
  dsimp only
  rw [unavailable_process env now2 st session_id query top_k hun hno]

/-- Witness for C5 on the LLM-less sample environment. -/
theorem C5_fallback_idempotent_witness :
    (process_query baseEnv 0 stEmpty "s" "q" 5).1.1 =
      (process_query baseEnv 1 (process_query baseEnv 0 stEmpty "s" "q" 5).2
        "s" "q" 5).1.1 :=
  C5_fallback_idempotent baseEnv 0 1 stEmpty "s" "q" 5 rfl rfl

/-- C6: after `cleanup_old_sessions`, every session whose `last_active`
is older than the threshold is gone from both tables (atomic per-session
removal), and every session not older keeps its timestamp and engine
entries untouched. -/
theorem C6_evict_idle (st : Sessions) (now max_age : Int)
    (session_id : String)
    (hnd : (st.session_cleanup_time.map Prod.fst).Nodup) :
    (∀ t, dlookup st.session_cleanup_time session_id = some t →
        t < now - max_age →
        dlookup (cleanup_old_sessions st now max_age).session_cleanup_time
            session_id = none ∧
        dlookup (cleanup_old_sessions st now max_age).chat_engines
            session_id = none) ∧
    (∀ t, dlookup st.session_cleanup_time session_id = some t →
        ¬ t < now - max_age →
        dlookup (cleanup_old_sessions st now max_age).session_cleanup_time
            session_id = some t ∧
        dlookup (cleanup_old_sessions st now max_age).chat_engines
            session_id = dlookup st.chat_engines session_id) := by
  constructor
  · intro t hl ht
    have hmem : session_id ∈ (st.session_cleanup_time.filter
        (fun p => p.2 < now - max_age)).map Prod.fst := by
      refine List.mem_map.mpr ⟨(session_id, t), ?_, rfl⟩
      refine List.mem_filter.mpr ⟨dlookup_mem hl, ?_⟩
      simpa using ht
    rw [cleanup_time_lookup, cleanup_engines_lookup, if_pos hmem, if_pos hmem]
    exact ⟨rfl, rfl⟩
  · intro t hl ht
    have hmem : ¬ session_id ∈ (st.session_cleanup_time.filter
        (fun p => p.2 < now - max_age)).map Prod.fst := by
      intro hc
      obtain ⟨p, hpf, hp1⟩ := List.mem_map.mp hc
      obtain ⟨hpt, hplt⟩ := List.mem_filter.mp hpf
      obtain ⟨a, b⟩ := p
      dsimp only at hp1
      subst hp1
      have h2 : dlookup st.session_cleanup_time a = some b :=
        mem_dlookup_of_nodup hnd hpt
      rw [hl] at h2
      injection h2 with h2
      subst h2
      exact ht (by simpa using hplt)
    rw [cleanup_time_lookup, cleanup_engines_lookup, if_neg hmem, if_neg hmem]
    exact ⟨hl, rfl⟩

/-- Witness for C6: with `now = 100`, `max_age = 50`, session `s1`
(last active 0) is evicted from both tables and `s2` (last active 90)
is kept. -/
theorem C6_evict_idle_witness :
    (dlookup (cleanup_old_sessions stSample 100 50).session_cleanup_time
        "s1" = none ∧
      dlookup (cleanup_old_sessions stSample 100 50).chat_engines
        "s1" = none) ∧
    dlookup (cleanup_old_sessions stSample 100 50).session_cleanup_time
      "s2" = some 90 := by
  refine ⟨(C6_evict_idle stSample 100 50 "s1" (by decide)).1 0 rfl
    (by decide), ?_⟩
  exact ((C6_evict_idle stSample 100 50 "s2" (by decide)).2 90 rfl
    (by decide)).1

/-- C9: the two session tables always hold the same key set: the
invariant is preserved by engine creation, by `process_query`, by
explicit session deletion (whose paired unguarded deletes therefore
never raise), and by idle eviction. -/
theorem C9_session_tables_synced (env : Env) (now max_age : Int)
    (st : Sessions) (sid sid2 query : String) (top_k : Nat)
    (hsync : keysSynced st) :
    keysSynced (create_chat_engine env now st sid).2 ∧
    keysSynced (process_query env now st sid query top_k).2 ∧
    (∃ r, clear_session st sid2 = Except.ok r ∧ keysSynced r.1) ∧
    keysSynced (cleanup_old_sessions st now max_age) := by
  refine ⟨?_, process_query_sync env now st sid query top_k hsync,
    clear_session_sync st sid2 hsync, cleanup_sync st now max_age hsync⟩
  unfold create_chat_engine
  by_cases ha : llmActive env = true
  · rw [if_pos ha]
    by_cases hc : env.createOk = true
    · rw [if_pos hc]
      exact keysSynced_dinsert_both st sid _ now hsync
    · rw [if_neg hc]
      exact hsync
  · rw [if_neg ha]
    exact hsync

/-- Witness for C9 on the empty session state. -/
theorem C9_session_tables_synced_witness :
    keysSynced (cleanup_old_sessions stEmpty 0 0) :=
  (C9_session_tables_synced baseEnv 0 0 stEmpty "a" "b" "q" 5
    (fun _ => Iff.rfl)).2.2.2

/-- C10: with the generation backend unavailable, `process_query` (via
the chat endpoint) leaves both session tables unchanged — no engine and
no timestamp entry is created — while a session id is still returned to
the caller. -/
theorem C10_unavailable_frame (env : Env) (now : Int) (st : Sessions)
    (request_sid : Option String) (fresh_sid query : String) (top_k : Nat)
    (hun : llmActive env = false)
    (hno : dlookup st.chat_engines (request_sid.getD fresh_sid) = none) :
    (chat_endpoint env now st request_sid fresh_sid query top_k).2 = st ∧
    (chat_endpoint env now st request_sid fresh_sid query top_k).1.2.2 =
      request_sid.getD fresh_sid := by
  unfold chat_endpoint
  dsimp only
  rw [unavailable_process env now st (request_sid.getD fresh_sid) query
    top_k hun hno]
  exact ⟨rfl, rfl⟩

/-- Witness for C10: a chat call on the empty state with no LLM leaves
the state empty and returns the fresh session id. -/
theorem C10_unavailable_frame_witness :
    (chat_endpoint baseEnv 0 stEmpty none "fresh" "q" 5).2 = stEmpty ∧
    (chat_endpoint baseEnv 0 stEmpty none "fresh" "q" 5).1.2.2 = "fresh" :=
  C10_unavailable_frame baseEnv 0 stEmpty none "fresh" "q" 5 rfl rfl

/-- Witness for C7: the local variant leaves the query unchanged, and a
successful hosted call returns the trimmed generated text. -/
theorem C7_normalize_policy_witness :
    normalize_query envLocalLLM "ปวดหัว" = "ปวดหัว" ∧
    normalize_query envOpenAIok "q" = "  ok  ".trim := by
  constructor
  · exact (C7_normalize_policy envLocalLLM "ปวดหัว").1 (Or.inl rfl)
  · exact (C7_normalize_policy envOpenAIok "q").2.2 "  ok  " rfl rfl rfl
